import Mathlib

/-!
Shallow embedding of the authentication core of the repository:
the server actions in src/app/actions/auth.ts (signin, signup, signout)
and the data-access layer in src/lib/dal.ts (getCurrentUser,
getUserByEmail, getIssues).  External collaborators (the session store
and credential hasher of the missing lib/auth module, the data store,
the redirect helper) are modelled from the specification; fallible
external calls are oracle parameters valued in Except, and the
orchestrators' try/catch blocks become explicit handlers of those
Except values.
-/

/-- A User record of the data store: unique id, email, stored password hash. -/
structure User where
  id : Nat
  email : String
  password : String
deriving Repr, DecidableEq

/-- A session bound to a user id with a validity window, as the spec
describes the Session Store state (lib/auth is not under src/). -/
structure Session where
  userId : Nat
  issuedAt : Nat
  expiresAt : Nat
deriving Repr, DecidableEq

/-- An Issue record: id, owning user reference, creation timestamp. -/
structure Issue where
  id : Nat
  userId : Nat
  createdAt : Nat
deriving Repr, DecidableEq

/-- An issue joined with its owning User record, the row shape produced
by the findMany query of getIssues with the user relation loaded. -/
structure IssueWithUser where
  issue : Issue
  user : Option User
deriving Repr, DecidableEq

/-- The ActionResponse envelope of src/app/actions/auth.ts: success flag,
message, optional per-field errors map, optional error string.  The
errors map Record<string, string[]> is a list of field/messages pairs. -/
structure ActionResponse where
  success : Bool
  message : String
  errors : Option (List (String × List String)) := none
  error : Option String := none
deriving Repr, DecidableEq

/-- Messages attached to one field of a response errors map. -/
def fieldErrorsOf (r : ActionResponse) (field : String) : List String :=
  (((r.errors.getD []).find? (fun p => p.1 == field)).map (fun p => p.2)).getD []

/-- Modelled from the spec: Session Store create(userId) mints a session
bound to the user id with issuedAt now and a positive expiry window,
overwriting any prior token of the channel (lib/auth is not under src/). -/
def sessionCreate (userId now dur : Nat) : Session :=
  { userId := userId, issuedAt := now, expiresAt := now + dur }

/-- Modelled from the spec: Session Store resolve returns the channel
session unless absent or past its expiresAt; it never throws
(lib/auth getSession is not under src/). -/
def getSession (channel : Option Session) (now : Nat) : Option Session :=
  match channel with
  | none => none
  | some s => if now < s.expiresAt then some s else none

/-- Split a character list at every occurrence of a separator, the
character-level counterpart of splitting a string on a one-character
separator; an empty list splits into one empty piece. -/
def splitOnChar (c : Char) : List Char → List (List Char)
  | [] => [[]]
  | x :: xs =>
    match splitOnChar c xs with
    | [] => [[x]]
    | y :: ys => if x == c then [] :: y :: ys else (x :: y) :: ys

/-- Modelled from the spec: the RFC email-shape check of the external
validation library (z.string().email(), not part of src/): a nonempty
local part, one at-sign, and a dotted domain of nonempty labels. -/
def isValidEmail (s : String) : Bool :=
  decide (0 < s.length) &&
  (match splitOnChar ('@') s.data with
   | [lp, domain] =>
     decide (0 < lp.length) &&
     (let parts := splitOnChar ('.') domain
      decide (2 ≤ parts.length) && parts.all (fun p => decide (0 < p.length)))
   | _ => false)

/-- Messages collected for the email field by SignInSchema:
min(1, Email is required) then email(Invalid email format); the
validation library runs every string check and collects each failure. -/
def signInEmailErrors (email : String) : List String :=
  (if email.length < 1 then [("Email is required")] else []) ++
  (if isValidEmail email then [] else [("Invalid email format")])

/-- Messages collected for the password field by SignInSchema:
min(1, Password is required). -/
def signInPasswordErrors (password : String) : List String :=
  if password.length < 1 then [("Password is required")] else []

/-- The flattened fieldErrors of SignInSchema.safeParse on string input:
an entry per field that produced at least one issue. -/
def signInFieldErrors (email password : String) : List (String × List String) :=
  (if (signInEmailErrors email).isEmpty then []
   else [(("email"), signInEmailErrors email)]) ++
  (if (signInPasswordErrors password).isEmpty then []
   else [(("password"), signInPasswordErrors password)])

/-- Messages collected for the password field by SignUpSchema:
min(6, Password must be at least 6 characters). -/
def signUpPasswordErrors (password : String) : List String :=
  if password.length < 6 then [("Password must be at least 6 characters")] else []

/-- Messages collected for the confirmPassword field by SignUpSchema:
min(1, Please confirm your password). -/
def signUpConfirmErrors (confirm : String) : List String :=
  if confirm.length < 1 then [("Please confirm your password")] else []

/-- The refinement of SignUpSchema: password must equal confirmPassword,
with the issue attached at path confirmPassword.  On string input the
base object parse is never aborted, so the refinement always runs (the
validation library skips a refinement only on an aborted inner parse). -/
def signUpRefineErrors (password confirm : String) : List String :=
  if password == confirm then [] else [("Passwords don\x27t match")]

/-- The flattened fieldErrors of SignUpSchema.safeParse on string input:
base issues of each field, with the refinement issue appended to the
confirmPassword entry. -/
def signUpFieldErrors (email password confirm : String) : List (String × List String) :=
  let confAll := signUpConfirmErrors confirm ++ signUpRefineErrors password confirm
  (if (signInEmailErrors email).isEmpty then []
   else [(("email"), signInEmailErrors email)]) ++
  (if (signUpPasswordErrors password).isEmpty then []
   else [(("password"), signUpPasswordErrors password)]) ++
  (if confAll.isEmpty then [] else [(("confirmPassword"), confAll)])

/-- The drizzle findFirst query issued by getUserByEmail: first user whose
email equals the argument, or a thrown store fault. -/
def usersFindFirstByEmail (users : List User) (dbFault : Option String)
    (email : String) : Except String (Option User) :=
  match dbFault with
  | some e => Except.error e
  | none => Except.ok (users.find? (fun u => u.email == email))

/-- getUserByEmail of src/lib/dal.ts: runs the findFirst query in a try
block; a store fault is caught, logged and degraded to null. -/
def getUserByEmail (users : List User) (dbFault : Option String)
    (email : String) : Except String (Option User) :=
  match usersFindFirstByEmail users dbFault email with
  | Except.ok u => Except.ok u
  | Except.error _ => Except.ok none

/-- getCurrentUser of src/lib/dal.ts: resolve the session (outside any
try block); if none, return null; otherwise run the select-by-id query
in a try block, returning result[0] or null, and degrading a caught
store fault to null. -/
def getCurrentUser (channel : Option Session) (now : Nat)
    (query : Nat → Except String (List User)) : Except String (Option User) :=
  match getSession channel now with
  | none => Except.ok none
  | some s =>
    match query s.userId with
    | Except.ok result => Except.ok result.head?
    | Except.error _ => Except.ok none

/-- The drizzle findMany query issued by getIssues: every issue joined
with its owning User record, ordered by createdAt descending. -/
def dbIssuesFindMany (users : List User) (issuesRows : List Issue) :
    List IssueWithUser :=
  (issuesRows.mergeSort (fun a b => decide (b.createdAt ≤ a.createdAt))).map
    (fun i => { issue := i, user := users.find? (fun u => u.id == i.userId) })

/-- getIssues of src/lib/dal.ts: return the findMany result; a caught
store fault is logged and re-thrown as Failed to fetch issues. -/
def getIssues (q : Except String (List IssueWithUser)) :
    Except String (List IssueWithUser) :=
  match q with
  | Except.ok r => Except.ok r
  | Except.error _ => Except.error ("Failed to fetch issues")

/-- The external collaborators of one signin invocation: a fault of the
mockDelay call, a fault of the data-store lookup inside getUserByEmail,
the verifyPassword hasher call, a fault of the session-store create
call, and the clock and expiry window used when a session is minted. -/
structure SigninCtx where
  delayFault : Option String
  dbFault : Option String
  verifyPassword : String → String → Except String Bool
  sessionFault : Option String
  now : Nat
  dur : Nat

/-- The response returned by both credential-failure branches of signin. -/
def invalidCredentials : ActionResponse :=
  { success := false
    message := "Invalid email or password"
    errors := some [(("email"), [("Invalid email or password")])] }

/-- The response built by the catch block of signin. -/
def somethingWentWrong : ActionResponse :=
  { success := false, message := "Something went wrong" }

/-- The body of the try block of signin in src/app/actions/auth.ts:
delay, validate, look the user up by email, verify the password, mint a
session; an Except.error is an exception escaping to the catch block.
Returns the response together with the session channel it leaves. -/
def signinTry (users : List User) (channel : Option Session) (ctx : SigninCtx)
    (email password : String) :
    Except String (ActionResponse × Option Session) :=
  match ctx.delayFault with
  | some e => Except.error e
  | none =>
    let errs := signInFieldErrors email password
    if ¬ errs.isEmpty then
      Except.ok ({ success := false, message := "Validation failed",
                   errors := some errs }, channel)
    else
      match getUserByEmail users ctx.dbFault email with
      | Except.error e => Except.error e
      | Except.ok none => Except.ok (invalidCredentials, channel)
      | Except.ok (some u) =>
        match ctx.verifyPassword password u.password with
        | Except.error e => Except.error e
        | Except.ok ok =>
          if ok then
            match ctx.sessionFault with
            | some e => Except.error e
            | none =>
              Except.ok ({ success := true, message := "Signed in successfully" },
                         some (sessionCreate u.id ctx.now ctx.dur))
          else
            Except.ok (invalidCredentials, channel)

/-- signin of src/app/actions/auth.ts: the try body with its catch block,
which logs and converts any escaped exception to Something went wrong,
leaving the session channel untouched. -/
def signinRun (users : List User) (channel : Option Session) (ctx : SigninCtx)
    (email password : String) : ActionResponse × Option Session :=
  match signinTry users channel ctx email password with
  | Except.ok r => r
  | Except.error _ => (somethingWentWrong, channel)

/-- The external collaborators of one signup invocation: a fault of the
mockDelay call, the createUser call of lib/auth (which hashes and
inserts, yielding a user, no user, or a thrown fault), a fault of the
session-store create call, and the clock and expiry window. -/
structure SignupCtx where
  delayFault : Option String
  createUser : String → String → Except String (Option User)
  sessionFault : Option String
  now : Nat
  dur : Nat

/-- The response built by the catch block of signup, with the exact
message string of the source. -/
def signupCatchResponse : ActionResponse :=
  { success := false
    message := "An error occured while creating your account"
    error := some ("Failed to create account") }

/-- The body of the try block of signup in src/app/actions/auth.ts:
delay, validate, create the user, mint a session. -/
def signupTry (channel : Option Session) (ctx : SignupCtx)
    (email password confirm : String) :
    Except String (ActionResponse × Option Session) :=
  match ctx.delayFault with
  | some e => Except.error e
  | none =>
    let errs := signUpFieldErrors email password confirm
    if ¬ errs.isEmpty then
      Except.ok ({ success := false, message := "Validation failed",
                   errors := some errs }, channel)
    else
      match ctx.createUser email password with
      | Except.error e => Except.error e
      | Except.ok none =>
        Except.ok ({ success := false, message := "try again",
                     error := some ("failed to create user") }, channel)
      | Except.ok (some u) =>
        match ctx.sessionFault with
        | some e => Except.error e
        | none =>
          Except.ok ({ success := true, message := "Account created successfully" },
                     some (sessionCreate u.id ctx.now ctx.dur))

/-- signup of src/app/actions/auth.ts: the try body with its catch block,
which logs and converts any escaped exception to the account-creation
failure envelope, leaving the session channel untouched. -/
def signupRun (channel : Option Session) (ctx : SignupCtx)
    (email password confirm : String) : ActionResponse × Option Session :=
  match signupTry channel ctx email password confirm with
  | Except.ok r => r
  | Except.error _ => (signupCatchResponse, channel)

/-- The observable outcome of one signout invocation: the error it
re-raised, if any, and the destination of the redirect it issued. -/
structure SignoutResult where
  raised : Option String
  redirectedTo : Option String
deriving Repr, DecidableEq

/-- signout of src/app/actions/auth.ts over the spec-modelled session
store: deleteSession (Session Store destroy, lib/auth is not under src/)
clears the channel or throws the injected fault; a fault is logged and
re-raised by the catch block; the finally block redirects to /signin on
every exit path.  Returns the outcome and the channel it leaves. -/
def signout (channel : Option Session) (destroyFault : Option String) :
    SignoutResult × Option Session :=
  match destroyFault with
  | some e => ({ raised := some e, redirectedTo := some ("/signin") }, channel)
  | none => ({ raised := none, redirectedTo := some ("/signin") }, none)

/-- A concrete user row used by the concrete-input witnesses. -/
def demoUser : User := { id := 7, email := "a@b.com", password := "HASHsecret1" }

/-- A healthy signin context: no faults, verification recomputing the
stored digest. -/
def demoSigninCtx : SigninCtx :=
  { delayFault := none, dbFault := none,
    verifyPassword := fun p h => Except.ok (("HASH" ++ p) == h),
    sessionFault := none, now := 100, dur := 50 }

/-- A healthy signup context whose user creation stores the hashed
password under a fresh id. -/
def demoSignupCtx : SignupCtx :=
  { delayFault := none,
    createUser := fun e p =>
      Except.ok (some { id := 7, email := e, password := "HASH" ++ p }),
    sessionFault := none, now := 100, dur := 50 }

/-- A signup context whose user creation throws a store fault. -/
def demoSignupFaultCtx : SignupCtx :=
  { delayFault := none,
    createUser := fun _ _ => Except.error ("db down"),
    sessionFault := none, now := 100, dur := 50 }

/-- A signin context whose data-store lookup throws. -/
def demoDbDownCtx : SigninCtx :=
  { delayFault := none, dbFault := some ("db connection lost"),
    verifyPassword := fun p h => Except.ok (("HASH" ++ p) == h),
    sessionFault := none, now := 100, dur := 50 }

/-! Helper lemmas shared by the claim theorems. -/

/-- A valid email is in particular nonempty. -/
theorem length_pos_of_isValidEmail (email : String)
    (h : isValidEmail email = true) : 0 < email.length := by
  unfold isValidEmail at h
  rw [Bool.and_eq_true] at h
  exact of_decide_eq_true h.1

/-- A valid email produces no issue on the email field of SignInSchema. -/
theorem signInEmailErrors_eq_nil (email : String)
    (h : isValidEmail email = true) : signInEmailErrors email = [] := by
  have hpos := length_pos_of_isValidEmail email h
  unfold signInEmailErrors
  simp [h]
  omega

/-- A valid email and a nonempty password pass SignInSchema entirely. -/
theorem signInFieldErrors_eq_nil (email password : String)
    (hemail : isValidEmail email = true) (hpw : 0 < password.length) :
    signInFieldErrors email password = [] := by
  have he := signInEmailErrors_eq_nil email hemail
  unfold signInFieldErrors signInPasswordErrors
  simp [he]
  omega

/-- With distinct ids, filtering the users table by the id of a member
returns exactly that member. -/
theorem filter_by_id_eq (users : List User) (u : User)
    (hu : u ∈ users) (hids : (users.map (fun v => v.id)).Nodup) :
    users.filter (fun v => v.id == u.id) = [u] := by
  induction users with
  | nil => cases hu
  | cons v rest ih =>
    rw [List.map_cons, List.nodup_cons] at hids
    obtain ⟨hvid, hrest⟩ := hids
    rcases List.mem_cons.mp hu with rfl | hu'
    · rw [List.filter_cons_of_pos (by simp)]
      have hnil : rest.filter (fun w => w.id == u.id) = [] := by
        rw [List.filter_eq_nil_iff]
        intro w hw hbeq
        exact hvid (by
          rw [beq_iff_eq] at hbeq
          exact hbeq ▸ List.mem_map.mpr ⟨w, hw, rfl⟩)
      rw [hnil]
    · have hv : (v.id == u.id) = false := by
        rw [beq_eq_false_iff_ne]
        intro hvu
        exact hvid (hvu ▸ List.mem_map.mpr ⟨u, hu', rfl⟩)
      rw [List.filter_cons_of_neg (by simp [hv])]
      exact ih hu' hrest

/-- C6: signout logs and re-raises an error of the session-store
destroy instead of swallowing it, and on every exit path, success or
failure, its redirect to the signin destination fires; when destroy
succeeds the channel is cleared and nothing is raised. -/
theorem signout_reraises_and_always_redirects (channel : Option Session)
    (fault : Option String) :
    (signout channel fault).1.redirectedTo = some ("/signin") ∧
    (∀ e, fault = some e → (signout channel fault).1.raised = some e) ∧
    (fault = none →
      (signout channel fault).1.raised = none ∧
      (signout channel fault).2 = none) := by
  cases fault <;> simp [signout]

/-- C6 witness: a failing destroy still redirects and re-raises. -/
theorem signout_reraises_and_always_redirects_witness :
    (signout (some (sessionCreate 7 100 50)) (some ("store down"))).1.redirectedTo
        = some ("/signin") ∧
    (∀ e, (some ("store down") : Option String) = some e →
      (signout (some (sessionCreate 7 100 50)) (some ("store down"))).1.raised
          = some e) ∧
    ((some ("store down") : Option String) = none →
      (signout (some (sessionCreate 7 100 50)) (some ("store down"))).1.raised = none ∧
      (signout (some (sessionCreate 7 100 50)) (some ("store down"))).2 = none) :=
  signout_reraises_and_always_redirects (some (sessionCreate 7 100 50))
    (some ("store down"))

/-- C7: getCurrentUser always returns a value, never an exception: it
yields none when no session resolves, and it yields none when a session
resolves but the user query fails, the store fault being caught and
logged inside its try block. -/
theorem getCurrentUser_never_throws (channel : Option Session) (now : Nat)
    (query : Nat → Except String (List User)) :
    (∃ v, getCurrentUser channel now query = Except.ok v) ∧
    (getSession channel now = none →
      getCurrentUser channel now query = Except.ok none) ∧
    (∀ s e, getSession channel now = some s → query s.userId = Except.error e →
      getCurrentUser channel now query = Except.ok none) := by
  refine ⟨?_, ?_, ?_⟩
  · cases hs : getSession channel now with
    | none => exact ⟨none, by simp [getCurrentUser, hs]⟩
    | some s =>
      cases hq : query s.userId with
      | ok result => exact ⟨result.head?, by simp [getCurrentUser, hs, hq]⟩
      | error e => exact ⟨none, by simp [getCurrentUser, hs, hq]⟩
  · intro hnone
    simp [getCurrentUser, hnone]
  · intro s e hs hq
    simp [getCurrentUser, hs, hq]

/-- C7 witness: a live session whose user query faults degrades to none. -/
theorem getCurrentUser_never_throws_witness :
    (∃ v, getCurrentUser (some (sessionCreate 7 100 50)) 100
        (fun _ => Except.error ("db down")) = Except.ok v) ∧
    (getSession (some (sessionCreate 7 100 50)) 100 = none →
      getCurrentUser (some (sessionCreate 7 100 50)) 100
        (fun _ => Except.error ("db down")) = Except.ok none) ∧
    (∀ s e, getSession (some (sessionCreate 7 100 50)) 100 = some s →
      (fun _ : Nat => Except.error ("db down") :
          Nat → Except String (List User)) s.userId = Except.error e →
      getCurrentUser (some (sessionCreate 7 100 50)) 100
        (fun _ => Except.error ("db down")) = Except.ok none) :=
  getCurrentUser_never_throws (some (sessionCreate 7 100 50)) 100
    (fun _ => Except.error ("db down"))

/-- C10: on a store fault getIssues does not degrade: it re-throws as
Failed to fetch issues, while getUserByEmail swallows the same fault
into a null result and getCurrentUser swallows it into none. -/
theorem getIssues_rethrows_while_lookups_swallow (e : String)
    (users : List User) (email : String) (channel : Option Session)
    (now : Nat) :
    getIssues (Except.error e) = Except.error ("Failed to fetch issues") ∧
    getUserByEmail users (some e) email = Except.ok none ∧
    (∀ s, getSession channel now = some s →
      getCurrentUser channel now (fun _ => Except.error e) = Except.ok none) := by
  refine ⟨rfl, rfl, ?_⟩
  intro s hs
  simp [getCurrentUser, hs]

/-- C10 witness: the contrast at a concrete store fault. -/
theorem getIssues_rethrows_while_lookups_swallow_witness :
    getIssues (Except.error ("db down")) = Except.error ("Failed to fetch issues") ∧
    getUserByEmail [] (some ("db down")) ("a@b.com") = Except.ok none ∧
    (∀ s, getSession (some (sessionCreate 7 100 50)) 100 = some s →
      getCurrentUser (some (sessionCreate 7 100 50)) 100
        (fun _ => Except.error ("db down")) = Except.ok none) :=
  getIssues_rethrows_while_lookups_swallow ("db down") [] ("a@b.com")
    (some (sessionCreate 7 100 50)) 100

/-- C9: when the store query succeeds, getIssues returns the stored
issues, each joined with its owning User record, ordered by createdAt
newest-first. -/
theorem getIssues_ordered_and_joined (users : List User) (issuesRows : List Issue) :
    ∃ r, getIssues (Except.ok (dbIssuesFindMany users issuesRows)) = Except.ok r ∧
      List.Pairwise (fun a b : IssueWithUser =>
        b.issue.createdAt ≤ a.issue.createdAt) r ∧
      List.Perm (r.map (fun x => x.issue)) issuesRows ∧
      ∀ x ∈ r, x.user = users.find? (fun u => u.id == x.issue.userId) := by
  refine ⟨dbIssuesFindMany users issuesRows, rfl, ?_, ?_, ?_⟩
  · unfold dbIssuesFindMany
    rw [List.pairwise_map]
    have h := @List.sorted_mergeSort Issue
      (fun a b : Issue => decide (b.createdAt ≤ a.createdAt))
      (fun a b c hab hbc =>
        decide_eq_true (le_trans (of_decide_eq_true hbc) (of_decide_eq_true hab)))
      (fun a b => by
        rcases le_total b.createdAt a.createdAt with h | h <;> simp [h])
      issuesRows
    exact h.imp (fun hab => of_decide_eq_true hab)
  · unfold dbIssuesFindMany
    rw [List.map_map]
    have : ((fun x : IssueWithUser => x.issue) ∘
        (fun i : Issue =>
          ({ issue := i, user := users.find? (fun u => u.id == i.userId) } :
            IssueWithUser))) = fun i : Issue => i := rfl
    rw [this, List.map_id']
    exact List.mergeSort_perm issuesRows _
  · intro x hx
    unfold dbIssuesFindMany at hx
    rcases List.mem_map.mp hx with ⟨i, _, rfl⟩
    rfl

/-- C9 witness: the ordered joined listing at a concrete store state. -/
theorem getIssues_ordered_and_joined_witness :
    ∃ r, getIssues (Except.ok (dbIssuesFindMany
        [{ id := 7, email := "a@b.com", password := "h1" }]
        [{ id := 1, userId := 7, createdAt := 5 },
         { id := 2, userId := 7, createdAt := 9 }])) = Except.ok r ∧
      List.Pairwise (fun a b : IssueWithUser =>
        b.issue.createdAt ≤ a.issue.createdAt) r ∧
      List.Perm (r.map (fun x => x.issue))
        [{ id := 1, userId := 7, createdAt := 5 },
         { id := 2, userId := 7, createdAt := 9 }] ∧
      ∀ x ∈ r, x.user = List.find? (fun u => u.id == x.issue.userId)
        [{ id := 7, email := "a@b.com", password := "h1" }] :=
  getIssues_ordered_and_joined
    [{ id := 7, email := "a@b.com", password := "h1" }]
    [{ id := 1, userId := 7, createdAt := 5 },
     { id := 2, userId := 7, createdAt := 9 }]

/-- An entry guarded by an emptiness test is skipped by a field lookup
for a different key. -/
theorem find?_skip_entry {c : Prop} [Decidable c] (k field : String)
    (v : List String) (h : (k == field) = false) :
    List.find? (fun p => p.1 == field) (if c then [] else [(k, v)]) = none := by
  split <;> simp [h]

/-- C5: with a well-formed email and matching confirmation, a password
of length 5 makes signup fail validation with the length error on the
password field, while a password of length 6 passes the password-length
rule (and, with matching confirmation, the whole validation). -/
theorem signup_password_length_boundary
    (channel : Option Session) (ctx : SignupCtx) (email p5 p6 : String)
    (hdelay : ctx.delayFault = none)
    (hemail : isValidEmail email = true)
    (h5 : p5.length = 5) (h6 : p6.length = 6) :
    ((signupRun channel ctx email p5 p5).1.success = false ∧
     (signupRun channel ctx email p5 p5).1.message = "Validation failed" ∧
     fieldErrorsOf (signupRun channel ctx email p5 p5).1 ("password")
       = [("Password must be at least 6 characters")]) ∧
    signUpPasswordErrors p6 = [] ∧
    signUpFieldErrors email p6 p6 = [] := by
  have he := signInEmailErrors_eq_nil email hemail
  have herrs : signUpFieldErrors email p5 p5
      = [(("password"), [("Password must be at least 6 characters")])] := by
    unfold signUpFieldErrors signUpPasswordErrors signUpConfirmErrors signUpRefineErrors
    simp [he, h5]
  have hrun : signupRun channel ctx email p5 p5
      = ({ success := false, message := "Validation failed",
           errors := some [(("password"),
             [("Password must be at least 6 characters")])] }, channel) := by
    unfold signupRun signupTry
    rw [hdelay, herrs]
    simp
  refine ⟨?_, ?_, ?_⟩
  · rw [hrun]
    exact ⟨rfl, rfl, rfl⟩
  · unfold signUpPasswordErrors
    simp [h6]
  · unfold signUpFieldErrors signUpPasswordErrors signUpConfirmErrors signUpRefineErrors
    simp [he, h6]

/-- C5 witness: the boundary at the concrete passwords abcde and abcdef. -/
theorem signup_password_length_boundary_witness :
    ((signupRun none demoSignupCtx ("a@b.com") ("abcde") ("abcde")).1.success = false ∧
     (signupRun none demoSignupCtx ("a@b.com") ("abcde") ("abcde")).1.message
       = "Validation failed" ∧
     fieldErrorsOf (signupRun none demoSignupCtx ("a@b.com") ("abcde") ("abcde")).1
       ("password") = [("Password must be at least 6 characters")]) ∧
    signUpPasswordErrors ("abcdef") = [] ∧
    signUpFieldErrors ("a@b.com") ("abcdef") ("abcdef") = [] :=
  signup_password_length_boundary none demoSignupCtx ("a@b.com") ("abcde")
    ("abcdef") rfl (by decide) (by decide) (by decide)

/-- C4: whenever signup's password and confirmPassword strings differ,
validation fails and the mismatch message lands on the confirmPassword
field and never on the password field. -/
theorem signup_mismatch_on_confirmPassword
    (channel : Option Session) (ctx : SignupCtx) (email password confirm : String)
    (hdelay : ctx.delayFault = none)
    (hne : password ≠ confirm) :
    (signupRun channel ctx email password confirm).1.success = false ∧
    (signupRun channel ctx email password confirm).1.message = "Validation failed" ∧
    ("Passwords don\x27t match") ∈
      fieldErrorsOf (signupRun channel ctx email password confirm).1
        ("confirmPassword") ∧
    ("Passwords don\x27t match") ∉
      fieldErrorsOf (signupRun channel ctx email password confirm).1
        ("password") := by
  have hre : signUpRefineErrors password confirm = [("Passwords don\x27t match")] := by
    unfold signUpRefineErrors
    simp [hne]
  have hshape : signUpFieldErrors email password confirm
      = (if (signInEmailErrors email).isEmpty then []
         else [(("email"), signInEmailErrors email)]) ++
        (if (signUpPasswordErrors password).isEmpty then []
         else [(("password"), signUpPasswordErrors password)]) ++
        [(("confirmPassword"),
          signUpConfirmErrors confirm ++ [("Passwords don\x27t match")])] := by
    unfold signUpFieldErrors
    rw [hre]
    have : (signUpConfirmErrors confirm ++ [("Passwords don\x27t match")]).isEmpty
        = false := by
      rw [List.isEmpty_eq_false]
      simp
    simp [this]
  have hne2 : (signUpFieldErrors email password confirm).isEmpty = false := by
    rw [hshape, List.isEmpty_eq_false]
    simp
  have hrun : signupRun channel ctx email password confirm
      = ({ success := false, message := "Validation failed",
           errors := some (signUpFieldErrors email password confirm) }, channel) := by
    unfold signupRun signupTry
    rw [hdelay]
    simp [hne2]
  rw [hrun]
  have hC : fieldErrorsOf
      ({ success := false, message := "Validation failed",
         errors := some (signUpFieldErrors email password confirm) } : ActionResponse)
      ("confirmPassword")
      = signUpConfirmErrors confirm ++ [("Passwords don\x27t match")] := by
    unfold fieldErrorsOf
    rw [hshape]
    simp only [Option.getD_some]
    have hA1 : List.find? (fun p => p.1 == ("confirmPassword"))
        (if (signInEmailErrors email).isEmpty then []
         else [(("email"), signInEmailErrors email)]) = none :=
      find?_skip_entry ("email") ("confirmPassword") (signInEmailErrors email)
        (by decide)
    have hA2 : List.find? (fun p => p.1 == ("confirmPassword"))
        (if (signUpPasswordErrors password).isEmpty then []
         else [(("password"), signUpPasswordErrors password)]) = none :=
      find?_skip_entry ("password") ("confirmPassword")
        (signUpPasswordErrors password) (by decide)
    rw [List.find?_append, List.find?_append, hA1, hA2]
    simp
  have hP : ("Passwords don\x27t match") ∉ fieldErrorsOf
      ({ success := false, message := "Validation failed",
         errors := some (signUpFieldErrors email password confirm) } : ActionResponse)
      ("password") := by
    unfold fieldErrorsOf
    rw [hshape]
    simp only [Option.getD_some]
    have hA3 : List.find? (fun p => p.1 == ("password"))
        (if (signInEmailErrors email).isEmpty then []
         else [(("email"), signInEmailErrors email)]) = none :=
      find?_skip_entry ("email") ("password") (signInEmailErrors email)
        (by decide)
    rw [List.find?_append, List.find?_append, hA3]
    by_cases hB : (signUpPasswordErrors password).isEmpty
    · rw [if_pos hB]
      simp
    · rw [if_neg hB]
      have hBv : signUpPasswordErrors password
          = [("Password must be at least 6 characters")] := by
        unfold signUpPasswordErrors at hB ⊢
        split at hB <;> simp_all
      rw [hBv]
      simp
  refine ⟨rfl, rfl, ?_, hP⟩
  rw [hC]
  simp

/-- C4 witness: a concrete mismatching pair of passwords. -/
theorem signup_mismatch_on_confirmPassword_witness :
    (signupRun none demoSignupCtx ("a@b.com") ("secret1") ("secret2")).1.success
        = false ∧
    (signupRun none demoSignupCtx ("a@b.com") ("secret1") ("secret2")).1.message
        = "Validation failed" ∧
    ("Passwords don\x27t match") ∈
      fieldErrorsOf (signupRun none demoSignupCtx ("a@b.com") ("secret1")
        ("secret2")).1 ("confirmPassword") ∧
    ("Passwords don\x27t match") ∉
      fieldErrorsOf (signupRun none demoSignupCtx ("a@b.com") ("secret1")
        ("secret2")).1 ("password") :=
  signup_mismatch_on_confirmPassword none demoSignupCtx ("a@b.com") ("secret1")
    ("secret2") rfl (by decide)

/-- C8 counterexample: with a store fault thrown during user creation
after valid input, signup's catch envelope carries the source's message
string, which differs from the claimed byte-exact message. -/
theorem signup_catch_message_counterexample :
    (signupRun none demoSignupFaultCtx ("a@b.com") ("secret1") ("secret1")).1
        = signupCatchResponse ∧
    signupCatchResponse.message = "An error occured while creating your account" ∧
    ¬ (signupRun none demoSignupFaultCtx ("a@b.com") ("secret1") ("secret1")).1.message
        = "An error occurred while creating your account" := by
  refine ⟨by decide, rfl, by decide⟩

/-- C8 amended: an unexpected internal failure after signup validation
(user creation throwing, or session creation throwing) yields exactly
the envelope success false, message An error occured while creating
your account, error Failed to create account. -/
theorem signup_unexpected_failure_envelope
    (channel : Option Session) (ctx : SignupCtx) (email password confirm : String)
    (hdelay : ctx.delayFault = none)
    (hval : signUpFieldErrors email password confirm = []) :
    (∀ e, ctx.createUser email password = Except.error e →
      signupRun channel ctx email password confirm = (signupCatchResponse, channel)) ∧
    (∀ e u, ctx.createUser email password = Except.ok (some u) →
      ctx.sessionFault = some e →
      signupRun channel ctx email password confirm = (signupCatchResponse, channel)) ∧
    signupCatchResponse
      = { success := false,
          message := "An error occured while creating your account",
          error := some ("Failed to create account") } := by
  refine ⟨?_, ?_, rfl⟩
  · intro e hcreate
    unfold signupRun signupTry
    rw [hdelay, hval]
    simp [hcreate]
  · intro e u hcreate hsess
    unfold signupRun signupTry
    rw [hdelay, hval]
    simp [hcreate, hsess]

/-- C8 amended witness: the envelope at a concrete creation fault. -/
theorem signup_unexpected_failure_envelope_witness :
    (∀ e, demoSignupFaultCtx.createUser ("a@b.com") ("secret1") = Except.error e →
      signupRun none demoSignupFaultCtx ("a@b.com") ("secret1") ("secret1")
        = (signupCatchResponse, none)) ∧
    (∀ e u, demoSignupFaultCtx.createUser ("a@b.com") ("secret1")
        = Except.ok (some u) →
      demoSignupFaultCtx.sessionFault = some e →
      signupRun none demoSignupFaultCtx ("a@b.com") ("secret1") ("secret1")
        = (signupCatchResponse, none)) ∧
    signupCatchResponse
      = { success := false,
          message := "An error occured while creating your account",
          error := some ("Failed to create account") } :=
  signup_unexpected_failure_envelope none demoSignupFaultCtx ("a@b.com")
    ("secret1") ("secret1") rfl (by decide)

/-- C3 counterexample: with a data-store exception thrown inside the
user lookup, signin returns the invalid-credentials envelope, not
Something went wrong, because getUserByEmail swallows the fault. -/
theorem signin_db_fault_counterexample :
    (signinRun [demoUser] none demoDbDownCtx ("a@b.com") ("secret1")).1
        = invalidCredentials ∧
    invalidCredentials.message = "Invalid email or password" ∧
    ¬ (signinRun [demoUser] none demoDbDownCtx ("a@b.com") ("secret1")).1.message
        = "Something went wrong" := by
  refine ⟨by decide, rfl, by decide⟩

/-- C3 amended: every exception escaping to signin's own catch (the
delay, a throwing password verification, a throwing session creation)
is converted to Something went wrong and nothing surfaces uncaught,
while a data-store exception in the email lookup is swallowed inside
getUserByEmail and, with valid input, surfaces as the
invalid-credentials response instead. -/
theorem signin_fault_policy
    (users : List User) (channel : Option Session) (ctx : SigninCtx)
    (email password : String) :
    (∀ e, signinTry users channel ctx email password = Except.error e →
      signinRun users channel ctx email password = (somethingWentWrong, channel)) ∧
    (∀ e, ctx.delayFault = some e →
      signinRun users channel ctx email password = (somethingWentWrong, channel)) ∧
    (∀ u e, ctx.delayFault = none → signInFieldErrors email password = [] →
      getUserByEmail users ctx.dbFault email = Except.ok (some u) →
      ctx.verifyPassword password u.password = Except.error e →
      signinRun users channel ctx email password = (somethingWentWrong, channel)) ∧
    (∀ u e, ctx.delayFault = none → signInFieldErrors email password = [] →
      getUserByEmail users ctx.dbFault email = Except.ok (some u) →
      ctx.verifyPassword password u.password = Except.ok true →
      ctx.sessionFault = some e →
      signinRun users channel ctx email password = (somethingWentWrong, channel)) ∧
    (∀ e, ctx.delayFault = none → signInFieldErrors email password = [] →
      ctx.dbFault = some e →
      (signinRun users channel ctx email password).1 = invalidCredentials) := by
  refine ⟨?_, ?_, ?_, ?_, ?_⟩
  · intro e htry
    unfold signinRun
    rw [htry]
  · intro e hd
    unfold signinRun signinTry
    rw [hd]
  · intro u e hd hval hdb hv
    unfold signinRun signinTry
    rw [hd, hval]
    simp [hdb, hv]
  · intro u e hd hval hdb hv hsess
    unfold signinRun signinTry
    rw [hd, hval]
    simp [hdb, hv, hsess]
  · intro e hd hval hdb
    unfold signinRun signinTry
    rw [hd, hval, hdb]
    simp [getUserByEmail, usersFindFirstByEmail]

/-- C3 amended witness: the fault policy at a concrete state whose
data-store lookup throws. -/
theorem signin_fault_policy_witness :
    (∀ e, signinTry [demoUser] none demoDbDownCtx ("a@b.com") ("secret1")
        = Except.error e →
      signinRun [demoUser] none demoDbDownCtx ("a@b.com") ("secret1")
        = (somethingWentWrong, none)) ∧
    (∀ e, demoDbDownCtx.delayFault = some e →
      signinRun [demoUser] none demoDbDownCtx ("a@b.com") ("secret1")
        = (somethingWentWrong, none)) ∧
    (∀ u e, demoDbDownCtx.delayFault = none →
      signInFieldErrors ("a@b.com") ("secret1") = [] →
      getUserByEmail [demoUser] demoDbDownCtx.dbFault ("a@b.com")
        = Except.ok (some u) →
      demoDbDownCtx.verifyPassword ("secret1") u.password = Except.error e →
      signinRun [demoUser] none demoDbDownCtx ("a@b.com") ("secret1")
        = (somethingWentWrong, none)) ∧
    (∀ u e, demoDbDownCtx.delayFault = none →
      signInFieldErrors ("a@b.com") ("secret1") = [] →
      getUserByEmail [demoUser] demoDbDownCtx.dbFault ("a@b.com")
        = Except.ok (some u) →
      demoDbDownCtx.verifyPassword ("secret1") u.password = Except.ok true →
      demoDbDownCtx.sessionFault = some e →
      signinRun [demoUser] none demoDbDownCtx ("a@b.com") ("secret1")
        = (somethingWentWrong, none)) ∧
    (∀ e, demoDbDownCtx.delayFault = none →
      signInFieldErrors ("a@b.com") ("secret1") = [] →
      demoDbDownCtx.dbFault = some e →
      (signinRun [demoUser] none demoDbDownCtx ("a@b.com") ("secret1")).1
        = invalidCredentials) :=
  signin_fault_policy [demoUser] none demoDbDownCtx ("a@b.com") ("secret1")

/-- C2: with a well-formed email and nonempty password, a signin where
no user holds that email and a signin where the user exists but
verification rejects the password return envelopes with byte-identical
message and byte-identical errors.email content, both being the
invalid-credentials response. -/
theorem signin_indistinguishable_failures
    (users1 users2 : List User) (ch1 ch2 : Option Session)
    (ctx1 ctx2 : SigninCtx) (email password : String) (u : User)
    (hemail : isValidEmail email = true)
    (hpw : 0 < password.length)
    (hd1 : ctx1.delayFault = none) (hd2 : ctx2.delayFault = none)
    (hnouser : getUserByEmail users1 ctx1.dbFault email = Except.ok none)
    (huser : getUserByEmail users2 ctx2.dbFault email = Except.ok (some u))
    (hverify : ctx2.verifyPassword password u.password = Except.ok false) :
    (signinRun users1 ch1 ctx1 email password).1.message
        = (signinRun users2 ch2 ctx2 email password).1.message ∧
    fieldErrorsOf (signinRun users1 ch1 ctx1 email password).1 ("email")
        = fieldErrorsOf (signinRun users2 ch2 ctx2 email password).1 ("email") ∧
    (signinRun users1 ch1 ctx1 email password).1 = invalidCredentials ∧
    (signinRun users2 ch2 ctx2 email password).1 = invalidCredentials ∧
    invalidCredentials.message = "Invalid email or password" ∧
    fieldErrorsOf invalidCredentials ("email") = [("Invalid email or password")] := by
  have hval := signInFieldErrors_eq_nil email password hemail hpw
  have h1 : signinRun users1 ch1 ctx1 email password = (invalidCredentials, ch1) := by
    unfold signinRun signinTry
    rw [hd1, hval]
    simp [hnouser]
  have h2 : signinRun users2 ch2 ctx2 email password = (invalidCredentials, ch2) := by
    unfold signinRun signinTry
    rw [hd2, hval]
    simp [huser, hverify]
  rw [h1, h2]
  exact ⟨rfl, rfl, rfl, rfl, rfl, by decide⟩

/-- C2 witness: unknown email against known email with wrong password. -/
theorem signin_indistinguishable_failures_witness :
    (signinRun [] none demoSigninCtx ("a@b.com") ("wrongpw")).1.message
        = (signinRun [demoUser] none demoSigninCtx ("a@b.com") ("wrongpw")).1.message ∧
    fieldErrorsOf (signinRun [] none demoSigninCtx ("a@b.com") ("wrongpw")).1 ("email")
        = fieldErrorsOf (signinRun [demoUser] none demoSigninCtx ("a@b.com")
            ("wrongpw")).1 ("email") ∧
    (signinRun [] none demoSigninCtx ("a@b.com") ("wrongpw")).1 = invalidCredentials ∧
    (signinRun [demoUser] none demoSigninCtx ("a@b.com") ("wrongpw")).1
        = invalidCredentials ∧
    invalidCredentials.message = "Invalid email or password" ∧
    fieldErrorsOf invalidCredentials ("email") = [("Invalid email or password")] :=
  signin_indistinguishable_failures [] [demoUser] none none demoSigninCtx
    demoSigninCtx ("a@b.com") ("wrongpw") demoUser (by decide) (by decide)
    rfl rfl rfl rfl rfl

/-- Inversion of a successful signin: success is only reached by
finding the user by email, verifying the password, and minting a
session bound to that user's id. -/
theorem signinRun_success_inv (users : List User) (channel : Option Session)
    (ctx : SigninCtx) (email password : String) (r : ActionResponse)
    (ch : Option Session)
    (hrun : signinRun users channel ctx email password = (r, ch))
    (hsucc : r.success = true) :
    ∃ u, users.find? (fun v => v.email == email) = some u ∧
      r = { success := true, message := "Signed in successfully" } ∧
      ch = some (sessionCreate u.id ctx.now ctx.dur) := by
  unfold signinRun signinTry at hrun
  cases hd : ctx.delayFault with
  | some e =>
    rw [hd] at hrun
    simp at hrun
    obtain ⟨hr, _⟩ := hrun
    rw [← hr] at hsucc
    simp [somethingWentWrong] at hsucc
  | none =>
    rw [hd] at hrun
    simp only at hrun
    by_cases hval : (signInFieldErrors email password).isEmpty
    · rw [if_neg (by simp [hval])] at hrun
      cases hdb : getUserByEmail users ctx.dbFault email with
      | error e =>
        exact absurd hdb (by
          unfold getUserByEmail
          cases usersFindFirstByEmail users ctx.dbFault email <;> simp)
      | ok uo =>
        rw [hdb] at hrun
        cases uo with
        | none =>
          simp at hrun
          obtain ⟨hr, _⟩ := hrun
          rw [← hr] at hsucc
          simp [invalidCredentials] at hsucc
        | some u =>
          dsimp only at hrun
          cases hv : ctx.verifyPassword password u.password with
          | error e =>
            rw [hv] at hrun
            simp at hrun
            obtain ⟨hr, _⟩ := hrun
            rw [← hr] at hsucc
            simp [somethingWentWrong] at hsucc
          | ok ok =>
            rw [hv] at hrun
            cases ok with
            | false =>
              simp at hrun
              obtain ⟨hr, _⟩ := hrun
              rw [← hr] at hsucc
              simp [invalidCredentials] at hsucc
            | true =>
              cases hs : ctx.sessionFault with
              | some e =>
                rw [hs] at hrun
                simp at hrun
                obtain ⟨hr, _⟩ := hrun
                rw [← hr] at hsucc
                simp [somethingWentWrong] at hsucc
              | none =>
                rw [hs] at hrun
                simp at hrun
                obtain ⟨hr, hch⟩ := hrun
                refine ⟨u, ?_, hr.symm, hch.symm⟩
                have : usersFindFirstByEmail users ctx.dbFault email
                    = Except.ok (some u) := by
                  unfold getUserByEmail at hdb
                  cases hf : usersFindFirstByEmail users ctx.dbFault email with
                  | error e => rw [hf] at hdb; simp at hdb
                  | ok v => rw [hf] at hdb; simp at hdb; rw [hdb]
                cases hfault : ctx.dbFault with
                | some e =>
                  rw [hfault] at this
                  simp [usersFindFirstByEmail] at this
                | none =>
                  rw [hfault] at this
                  simp [usersFindFirstByEmail] at this
                  exact this
    · rw [if_pos (by simp [hval])] at hrun
      simp at hrun
      obtain ⟨hr, _⟩ := hrun
      rw [← hr] at hsucc
      simp at hsucc

/-- Inversion of a successful signup: success is only reached by
creating the user and minting a session bound to the created id. -/
theorem signupRun_success_inv (channel : Option Session) (ctx : SignupCtx)
    (email password confirm : String) (r : ActionResponse) (ch : Option Session)
    (hrun : signupRun channel ctx email password confirm = (r, ch))
    (hsucc : r.success = true) :
    ∃ u, ctx.createUser email password = Except.ok (some u) ∧
      r = { success := true, message := "Account created successfully" } ∧
      ch = some (sessionCreate u.id ctx.now ctx.dur) := by
  unfold signupRun signupTry at hrun
  cases hd : ctx.delayFault with
  | some e =>
    rw [hd] at hrun
    simp at hrun
    obtain ⟨hr, _⟩ := hrun
    rw [← hr] at hsucc
    simp [signupCatchResponse] at hsucc
  | none =>
    rw [hd] at hrun
    simp only at hrun
    by_cases hval : (signUpFieldErrors email password confirm).isEmpty
    · rw [if_neg (by simp [hval])] at hrun
      cases hcreate : ctx.createUser email password with
      | error e =>
        rw [hcreate] at hrun
        simp at hrun
        obtain ⟨hr, _⟩ := hrun
        rw [← hr] at hsucc
        simp [signupCatchResponse] at hsucc
      | ok uo =>
        rw [hcreate] at hrun
        cases uo with
        | none =>
          simp at hrun
          obtain ⟨hr, _⟩ := hrun
          rw [← hr] at hsucc
          simp at hsucc
        | some u =>
          dsimp only at hrun
          cases hs : ctx.sessionFault with
          | some e =>
            rw [hs] at hrun
            simp at hrun
            obtain ⟨hr, _⟩ := hrun
            rw [← hr] at hsucc
            simp [signupCatchResponse] at hsucc
          | none =>
            rw [hs] at hrun
            simp at hrun
            obtain ⟨hr, hch⟩ := hrun
            exact ⟨u, rfl, hr.symm, hch.symm⟩
    · rw [if_pos (by simp [hval])] at hrun
      simp at hrun
      obtain ⟨hr, _⟩ := hrun
      rw [← hr] at hsucc
      simp at hsucc

/-- A freshly minted session resolves at its creation instant, so
getCurrentUser reduces to the user query at the bound id. -/
theorem getCurrentUser_fresh (uid now dur : Nat)
    (query : Nat → Except String (List User)) (hdur : 0 < dur) :
    getCurrentUser (some (sessionCreate uid now dur)) now query
      = match query uid with
        | Except.ok result => Except.ok result.head?
        | Except.error _ => Except.ok none := by
  unfold getCurrentUser getSession sessionCreate
  dsimp only
  rw [if_pos (by omega)]

/-- C1: a successful signin mints a session bound to the id of the user
found by email and getCurrentUser then returns that user from a store
with distinct ids; a successful signup mints a session bound to the
created user's id and getCurrentUser returns that user from any store
mapping the id to the created record; after a completed signout the
channel is cleared and getCurrentUser returns none regardless of the
prior session state. -/
theorem auth_success_sets_identity_signout_clears_it
    (users : List User) (channel : Option Session) (ctx : SigninCtx)
    (email password : String)
    (hids : (users.map (fun v => v.id)).Nodup)
    (hdur : 0 < ctx.dur) :
    (∀ r ch, signinRun users channel ctx email password = (r, ch) →
      r.success = true →
      ∃ u, u ∈ users ∧
        ch = some (sessionCreate u.id ctx.now ctx.dur) ∧
        getCurrentUser ch ctx.now
          (fun uid => Except.ok (users.filter (fun v => v.id == uid)))
          = Except.ok (some u)) ∧
    (∀ (sctx : SignupCtx) (e p c : String) (r : ActionResponse)
        (ch : Option Session), 0 < sctx.dur →
      signupRun channel sctx e p c = (r, ch) → r.success = true →
      ∃ u, sctx.createUser e p = Except.ok (some u) ∧
        ch = some (sessionCreate u.id sctx.now sctx.dur) ∧
        ∀ query : Nat → Except String (List User), query u.id = Except.ok [u] →
          getCurrentUser ch sctx.now query = Except.ok (some u)) ∧
    (∀ (ch0 : Option Session) (now : Nat)
        (query : Nat → Except String (List User)),
      (signout ch0 none).2 = none ∧
      getCurrentUser (signout ch0 none).2 now query = Except.ok none) := by
  refine ⟨?_, ?_, ?_⟩
  · intro r ch hrun hsucc
    obtain ⟨u, hfind, hr, hch⟩ :=
      signinRun_success_inv users channel ctx email password r ch hrun hsucc
    have hu : u ∈ users := List.mem_of_find?_eq_some hfind
    refine ⟨u, hu, hch, ?_⟩
    subst hch
    rw [getCurrentUser_fresh u.id ctx.now ctx.dur _ hdur]
    rw [filter_by_id_eq users u hu hids]
    rfl
  · intro sctx e p c r ch hdur2 hrun hsucc
    obtain ⟨u, hcreate, hr, hch⟩ :=
      signupRun_success_inv channel sctx e p c r ch hrun hsucc
    refine ⟨u, hcreate, hch, ?_⟩
    intro query hq
    subst hch
    rw [getCurrentUser_fresh u.id sctx.now sctx.dur query hdur2]
    rw [hq]
    rfl
  · intro ch0 now query
    exact ⟨rfl, rfl⟩

/-- C1 witness: the lifecycle at a concrete one-user store. -/
theorem auth_success_sets_identity_signout_clears_it_witness :
    (∀ r ch, signinRun [demoUser] none demoSigninCtx ("a@b.com") ("secret1")
        = (r, ch) →
      r.success = true →
      ∃ u, u ∈ [demoUser] ∧
        ch = some (sessionCreate u.id demoSigninCtx.now demoSigninCtx.dur) ∧
        getCurrentUser ch demoSigninCtx.now
          (fun uid => Except.ok (List.filter (fun v => v.id == uid) [demoUser]))
          = Except.ok (some u)) ∧
    (∀ (sctx : SignupCtx) (e p c : String) (r : ActionResponse)
        (ch : Option Session), 0 < sctx.dur →
      signupRun none sctx e p c = (r, ch) → r.success = true →
      ∃ u, sctx.createUser e p = Except.ok (some u) ∧
        ch = some (sessionCreate u.id sctx.now sctx.dur) ∧
        ∀ query : Nat → Except String (List User), query u.id = Except.ok [u] →
          getCurrentUser ch sctx.now query = Except.ok (some u)) ∧
    (∀ (ch0 : Option Session) (now : Nat)
        (query : Nat → Except String (List User)),
      (signout ch0 none).2 = none ∧
      getCurrentUser (signout ch0 none).2 now query = Except.ok none) :=
  auth_success_sets_identity_signout_clears_it [demoUser] none demoSigninCtx
    ("a@b.com") ("secret1") (by decide) (by decide)
